import Mathlib

/-!
Shallow embedding of the redflare proxy core (src/backend.rs, src/rustproxy.rs,
src/cluster_backend.rs, src/admin.rs) and proofs about its specification.

Machine conventions of the embedding:
* `mio::Token` values are `Nat`; `NULL_TOKEN` is `0`, `SERVER` is `1`.
* `std::time::Instant` values are `Nat` (ticks); `now + Duration::from_millis t`
  is `now + t`.
* A buffered TCP stream is modelled by the list of frames written to it
  (`List String`); the read side of a backend socket is modelled by the list of
  complete frames the wire codec will yield, in order, with the empty string
  standing for an incomplete frame (what `parse_redis_response` returns when no
  complete frame is buffered).
* `HashMap` is an association list with insert-replaces semantics.
* A Rust `panic!` / `.unwrap()` failure is `none`; a function that cannot panic
  on the modelled path returns its value directly.
-/

/-- Association-list lookup, modelling `HashMap::get`. -/
def lookupA {α : Type} (m : List (Nat × α)) (k : Nat) : Option α :=
  match m with
  | [] => none
  | (k2, v) :: rest => if k2 = k then some v else lookupA rest k

/-- Association-list insert-or-replace, modelling `HashMap::insert`. -/
def insertA {α : Type} (m : List (Nat × α)) (k : Nat) (v : α) : List (Nat × α) :=
  match m with
  | [] => [(k, v)]
  | (k2, v2) :: rest => if k2 = k then (k, v) :: rest else (k2, v2) :: insertA rest k v

/-- Association-list removal, modelling `HashMap::remove`. -/
def removeA {α : Type} (m : List (Nat × α)) (k : Nat) : List (Nat × α) :=
  match m with
  | [] => []
  | (k2, v) :: rest => if k2 = k then removeA rest k else (k2, v) :: removeA rest k

/-- String-keyed association-list lookup, for the cluster `hostnames` map. -/
def lookupS {α : Type} (m : List (String × α)) (k : String) : Option α :=
  match m with
  | [] => none
  | (k2, v) :: rest => if k2 = k then some v else lookupS rest k

/-- rustproxy.rs: `pub const NULL_TOKEN: Token = Token(0);` -/
def NULL_TOKEN : Nat := 0

/-- rustproxy.rs: `pub const SERVER: Token = Token(1);` -/
def SERVER : Nat := 1

/-- backend.rs: `pub enum Status`. -/
inductive Status : Type where
  | CONNECTED
  | DISCONNECTED
  | CONNECTING
  | LOADING
deriving DecidableEq, Repr

/-- rustproxy.rs: `pub enum StreamType`. -/
inductive StreamType : Type where
  | AdminClient
  | PoolClient
  | PoolServer
deriving DecidableEq, Repr

/-- rustproxy.rs: `pub enum Subscriber`. -/
inductive Subscriber : Type where
  | Timeout (t : Nat)
  | PoolServer (t : Nat)
  | PoolListener
  | PoolClient (t : Nat)
  | AdminListener
  | AdminClient
deriving DecidableEq, Repr

/-- The state surrounding one `SingleBackend`: the parent pool client map
(`BackendPool::client_sockets`, each client stream modelled by the frames
written to it), the deferred-flush FIFO (`RustProxy::written_sockets`) and the
subscriber registry (`RustProxy::subscribers`). -/
structure Env : Type where
  clients : List (Nat × List String)
  writtenSockets : List (Nat × StreamType)
  subscribers : List (Nat × Subscriber)
deriving DecidableEq, Repr

/-- backend.rs: `pub struct SingleBackend` (the fields the modelled operations
touch). `auth` and `db` are `config.auth` and `config.db`; `parentToken` is the
parent pool token reached through the `parent` raw pointer; `socket` is the
buffered write stream contents when the socket is present. -/
structure SingleBackend : Type where
  token : Nat
  status : Status
  queue : List (Nat × Nat)
  failure_limit : Nat
  retry_timeout : Nat
  failure_count : Nat
  auth : String
  db : Nat
  parentToken : Nat
  socket : Option (List String)
  timer : Option Unit
  timeout : Nat
deriving DecidableEq, Repr

/-- backend.rs `SingleBackend::new`: fresh backend state for a host. -/
def SingleBackend.mkNew (token : Nat) (timeout failure_limit retry_timeout : Nat)
    (auth : String) (db : Nat) (parentToken : Nat) : SingleBackend :=
  { token := token
    status := Status.DISCONNECTED
    queue := []
    failure_limit := failure_limit
    retry_timeout := retry_timeout
    failure_count := 0
    auth := auth
    db := db
    parentToken := parentToken
    socket := none
    timer := none
    timeout := timeout }

/-- backend.rs `SingleBackend::is_available`. -/
def SingleBackend.is_available (st : SingleBackend) : Bool :=
  st.status = Status.CONNECTED

/-- backend.rs `SingleBackend::write_to_stream`: writes the frame to the
socket buffered stream (panics when there is no socket), records the
deferred-flush entry `(self.token, PoolServer)`, and appends
`(client_token, now + timeout)` to the in-flight queue. -/
def write_to_stream (st : SingleBackend) (env : Env) (client_token : Nat)
    (message : String) (now : Nat) : Option (SingleBackend × Env) :=
  match st.socket with
  | none => none
  | some s =>
      some ({ st with
                socket := some (s ++ [message])
                queue := st.queue ++ [(client_token, now + st.timeout)] },
            { env with
                writtenSockets := env.writtenSockets ++ [(st.token, StreamType.PoolServer)] })

/-- backend.rs `SingleBackend::write_to_client`: looks up the client stream in
the parent pool map (panics when absent), writes the message, and records a
deferred flush `(client_token, PoolClient)`. -/
def write_to_client (env : Env) (client_token : Nat) (message : String) : Option Env :=
  match lookupA env.clients client_token with
  | none => none
  | some s =>
      some { env with
               clients := insertA env.clients client_token (s ++ [message])
               writtenSockets := env.writtenSockets ++ [(client_token, StreamType.PoolClient)] }

/-- backend.rs `SingleBackend::handle_connection`: called on the
CONNECTING to CONNECTED transition; when `config.auth` is non-empty it writes
the literal frame `"AUTH pass"` under `NULL_TOKEN`, and when `config.db` is
non-zero it writes the literal frame `"SELECT self.config.db"` under
`NULL_TOKEN` (both strings appear verbatim in the source). -/
def handle_connection (st : SingleBackend) (env : Env) (now : Nat) :
    Option (SingleBackend × Env) :=
  match (if st.auth ≠ "" then write_to_stream st env NULL_TOKEN "AUTH pass" now
         else some (st, env)) with
  | none => none
  | some (st2, env2) =>
      if st2.db ≠ 0 then write_to_stream st2 env2 NULL_TOKEN "SELECT self.config.db" now
      else some (st2, env2)

/-- backend.rs `SingleBackend::change_state`: a no-op when the target equals
the current status; otherwise only the four listed transitions are accepted
(the CONNECTING to CONNECTED one first runs `handle_connection`) and any other
pair panics. -/
def change_state (st : SingleBackend) (env : Env) (now : Nat) (target : Status) :
    Option (SingleBackend × Env × Bool) :=
  if st.status = target then some (st, env, true)
  else
    match st.status, target with
    | Status.DISCONNECTED, Status.CONNECTING =>
        some ({ st with status := target }, env, true)
    | Status.CONNECTING, Status.CONNECTED =>
        match handle_connection st env now with
        | none => none
        | some (st2, env2) => some ({ st2 with status := target }, env2, true)
    | Status.CONNECTING, Status.DISCONNECTED =>
        some ({ st with status := target }, env, true)
    | Status.CONNECTED, Status.DISCONNECTED =>
        some ({ st with status := target }, env, true)
    | _, _ => none

/-- The four transition edges accepted by the `match` in
`SingleBackend::change_state` (besides the same-status no-op). -/
def allowed_edge : Status → Status → Bool
  | Status.DISCONNECTED, Status.CONNECTING => true
  | Status.CONNECTING, Status.CONNECTED => true
  | Status.CONNECTING, Status.DISCONNECTED => true
  | Status.CONNECTED, Status.DISCONNECTED => true
  | _, _ => false

/-- backend.rs `SingleBackend::connect`: returns unchanged when already
CONNECTED; otherwise transitions to CONNECTING, installs a fresh socket
(modelled as an empty stream) and registers the backend token as a
`PoolServer` subscriber of the parent pool. -/
def connect (st : SingleBackend) (env : Env) (now : Nat) : Option (SingleBackend × Env) :=
  if st.status = Status.CONNECTED then some (st, env)
  else
    match change_state st env now Status.CONNECTING with
    | none => none
    | some (st2, env2, _) =>
        some ({ st2 with socket := some [] },
              { env2 with
                  subscribers := insertA env2.subscribers st2.token
                    (Subscriber.PoolServer st2.parentToken) })

/-- backend.rs `SingleBackend::write`: only a CONNECTED backend accepts the
frame (via `write_to_stream`); any other status returns `false` untouched. -/
def SingleBackend.write (st : SingleBackend) (env : Env) (message : String)
    (client_token : Nat) (now : Nat) : Option (SingleBackend × Env × Bool) :=
  match st.status with
  | Status.CONNECTED =>
      match write_to_stream st env client_token message now with
      | none => none
      | some (st2, env2) => some (st2, env2, true)
  | _ => some (st, env, false)

/-- backend.rs `SingleBackend::handle_timeout`: DISCONNECTED returns `false`;
otherwise the queue head is read (`unwrap`, panics on an empty queue); a head
deadline still in the future returns `false`; an expired head has
`-ERR RustProxy timed out\r\n` written to its client, then an exactly-equal
deadline bumps the consecutive-failure counter (when `failure_limit > 0`,
returning `true` once the counter exceeds the limit) while a strictly earlier
deadline panics. -/
def handle_timeout (st : SingleBackend) (env : Env) (timestamp : Nat) :
    Option (SingleBackend × Env × Bool) :=
  if st.status = Status.DISCONNECTED then some (st, env, false)
  else
    match st.queue.head? with
    | none => none
    | some (client_token, time) =>
        if timestamp < time then some (st, env, false)
        else
          match write_to_client env client_token "-ERR RustProxy timed out\r\n" with
          | none => none
          | some env2 =>
              if timestamp = time then
                if 0 < st.failure_limit then
                  if st.failure_limit < st.failure_count + 1 then
                    some ({ st with failure_count := st.failure_count + 1 }, env2, true)
                  else some ({ st with failure_count := st.failure_count + 1 }, env2, false)
                else some (st, env2, false)
              else none

/-- The error frame `mark_backend_down` writes to each drained client. -/
def unavailableMsg : String := "-ERR: Unavailable backend.\r\n"

/-- The drain loop of backend.rs `SingleBackend::mark_backend_down`: pops the
queue front to front, skips `NULL_TOKEN` entries, and for every other entry
looks the client up in the pool map (`unwrap`, panics when absent) and writes
`-ERR: Unavailable backend.\r\n` through `write_to_client2`. -/
def drain_queue (clients : List (Nat × List String)) (ws : List (Nat × StreamType)) :
    List (Nat × Nat) → Option (List (Nat × List String) × List (Nat × StreamType))
  | [] => some (clients, ws)
  | (client_token, _) :: rest =>
      if client_token = NULL_TOKEN then drain_queue clients ws rest
      else
        match lookupA clients client_token with
        | none => none
        | some s =>
            drain_queue (insertA clients client_token (s ++ [unavailableMsg]))
              (ws ++ [(client_token, StreamType.PoolClient)]) rest

/-- The first step of backend.rs `SingleBackend::mark_backend_down`: when the
backend is CONNECTED, the subscriber entry at `token - 1` is dropped before
anything else. -/
def mbd_env1 (st : SingleBackend) (env : Env) : Env :=
  if st.status = Status.CONNECTED then
    { env with subscribers := removeA env.subscribers (st.token - 1) }
  else env

/-- backend.rs `SingleBackend::mark_backend_down`: after the `mbd_env1` step,
transitions to DISCONNECTED, drains the queue with unavailability errors,
drops the socket and removes the backend token from the subscriber
registry. -/
def mark_backend_down (st : SingleBackend) (env : Env) (now : Nat) :
    Option (SingleBackend × Env) :=
  match change_state st (mbd_env1 st env) now Status.DISCONNECTED with
  | none => none
  | some (st2, env2, _) =>
      match drain_queue env2.clients env2.writtenSockets st2.queue with
      | none => none
      | some (clients2, ws2) =>
          some ({ st2 with queue := [], socket := none },
                { env2 with
                    clients := clients2
                    writtenSockets := ws2
                    subscribers := removeA env2.subscribers st2.token })

/-- backend.rs `SingleBackend::retry_connect`: installs a one-shot timer,
stores it on the backend, and registers the derived token `token + 1` as a
`Timeout` subscriber carrying the parent pool token. -/
def retry_connect (st : SingleBackend) (env : Env) : SingleBackend × Env :=
  ({ st with timer := some () },
   { env with
       subscribers := insertA env.subscribers (st.token + 1)
         (Subscriber.Timeout st.parentToken) })

/-- backend.rs `SingleBackend::handle_backend_failure`: `mark_backend_down`
followed by `retry_connect`. -/
def handle_backend_failure (st : SingleBackend) (env : Env) (now : Nat) :
    Option (SingleBackend × Env) :=
  match mark_backend_down st env now with
  | none => none
  | some (st2, env2) => some (retry_connect st2 env2)

/-- The response-pairing loop of backend.rs
`SingleBackend::handle_backend_response`: while the queue is non-empty, read
one frame from the socket (`get_backend_response`; the next element of the
frame list, or the empty string when the list is exhausted), stop on an empty
frame, otherwise pop the queue head and write the frame to that client. -/
def hbr_loop : List String → SingleBackend → Env → Option (SingleBackend × Env)
  | rs, st, env =>
    match st.queue with
    | [] => some (st, env)
    | (client_token, _) :: qrest =>
        match rs with
        | [] => some (st, env)
        | r :: rest =>
            if r = "" then some (st, env)
            else
              match write_to_client env client_token r with
              | none => none
              | some env2 => hbr_loop rest { st with queue := qrest } env2

/-- backend.rs `SingleBackend::handle_backend_response`: first transitions to
CONNECTED (the first readable event completes the connection), then runs the
response-pairing loop over the frames the codec yields. -/
def handle_backend_response (st : SingleBackend) (env : Env) (responses : List String)
    (now : Nat) : Option (SingleBackend × Env) :=
  match change_state st env now Status.CONNECTED with
  | none => none
  | some (st2, env2, _) => hbr_loop responses st2 env2

/-- One round of CRC16/XMODEM (the `crc16` crate with `XMODEM`): xor the byte
into the high 8 bits, then 8 shift-and-conditionally-xor-0x1021 steps, all
modulo 2^16. -/
def crc16_round (crc b : Nat) : Nat :=
  (List.range 8).foldl
    (fun c _ => if 32768 ≤ c then (Nat.xor (c * 2) 4129) % 65536 else (c * 2) % 65536)
    (Nat.xor crc ((b % 256) * 256) % 65536)

/-- CRC16/XMODEM of a byte sequence, initial value 0
(`State::<XMODEM>::calculate` in cluster_backend.rs `get_shard`). -/
def crc16_xmodem (data : List Nat) : Nat :=
  data.foldl crc16_round 0

/-- ASCII bytes of a string (keys in the modelled requests are ASCII). -/
def strBytes (s : String) : List Nat :=
  s.data.map Char.toNat

/-- redisprotocol `KeyPos` as used by cluster_backend.rs `get_shard`. -/
inductive KeyPos : Type where
  | Single (k : List Nat)
  | Unsupported
deriving DecidableEq, Repr

/-- Longest prefix of ASCII digits of a byte list, with the remainder. -/
def spanDigits : List Nat → List Nat × List Nat
  | [] => ([], [])
  | b :: rest =>
      if 48 ≤ b ∧ b ≤ 57 then
        let (ds, r) := spanDigits rest
        (b :: ds, r)
      else ([], b :: rest)

/-- Decimal value of a digit-byte list. -/
def digitsToNat (ds : List Nat) : Nat :=
  ds.foldl (fun a b => a * 10 + (b - 48)) 0

/-- Expects the two bytes `a`, `b` at the front, returning the remainder. -/
def expect2 (a b : Nat) : List Nat → Option (List Nat)
  | x :: y :: rest => if x = a ∧ y = b then some rest else none
  | _ => none

/-- Modelled from the spec: the wire codec frames bulk strings
`$<n>\x0D\x0A<payload>\x0D\x0A` (redisprotocol.rs is not under src/). Parses
one bulk string, returning its payload bytes and the remainder. -/
def parse_bulk (bs : List Nat) : Option (List Nat × List Nat) :=
  match bs with
  | 36 :: rest =>
      let (ds, r1) := spanDigits rest
      if ds = [] then none
      else
        match expect2 13 10 r1 with
        | none => none
        | some r2 =>
            let len := digitsToNat ds
            let payload := r2.take len
            if payload.length ≠ len then none
            else
              match expect2 13 10 (r2.drop len) with
              | none => none
              | some r3 => some (payload, r3)
  | _ => none

/-- Modelled from the spec: redisprotocol `extract_key` (not under src/) — for
an array request the key is the payload of the second bulk string; a
non-array request yields `Unsupported`; a malformed array fails. -/
def extract_key (msg : List Nat) : Option KeyPos :=
  match msg with
  | 42 :: rest =>
      let (ds, r1) := spanDigits rest
      if ds = [] then none
      else
        match expect2 13 10 r1 with
        | none => none
        | some r2 =>
            match parse_bulk r2 with
            | none => none
            | some (_, r3) =>
                match parse_bulk r3 with
                | none => none
                | some (key, _) => some (KeyPos.Single key)
  | _ => some KeyPos.Unsupported

/-- cluster_backend.rs `ClusterBackend::get_shard`: extract the key (`unwrap`,
and a non-`Single` position panics), hash it with CRC16/XMODEM, reduce mod
16384, read the host at that slot of the slot vector (`unwrap`) and return the
backend token registered for that host (`unwrap`). -/
def get_shard (slots : List String) (hostnames : List (String × Nat))
    (message : List Nat) : Option Nat :=
  match extract_key message with
  | none => none
  | some KeyPos.Unsupported => none
  | some (KeyPos.Single key) =>
      let hash_no := crc16_xmodem key
      let shard_no := hash_no % 16384
      match slots.get? shard_no with
      | none => none
      | some hostname => lookupS hostnames hostname

/-- The configuration pair mutated by LOADCONFIG and SWITCHCONFIG in
rustproxy.rs; configurations themselves are abstract (`Nat` ids), since
config.rs is not under src/. -/
structure ConfigState : Type where
  active : Nat
  staged : Option Nat
deriving DecidableEq, Repr

/-- rustproxy.rs `RustProxy::load_config`: `load_config(path).unwrap()` — the
loader result is passed in as `loadResult` (config.rs is not under src/); a
load or parse failure is `none` there and the `unwrap` panics; on success the
parsed configuration becomes the staged configuration. -/
def rustproxy_load_config (st : ConfigState) (loadResult : Option Nat) :
    Option ConfigState :=
  match loadResult with
  | none => none
  | some c => some { st with staged := some c }

/-- The `Some("LOADCONFIG")` arm of rustproxy.rs
`RustProxy::handle_client_socket`: a missing path argument replies
`+Missing filepath argument!`; otherwise `self.load_config(arg).unwrap()` runs
(panicking when the load fails) and the reply is `+<path>`; every reply is
framed as `+<res>\x0D\x0A`. -/
def handle_loadconfig (st : ConfigState) (arg : Option String)
    (loadResult : Option Nat) : Option (ConfigState × String) :=
  match arg with
  | none => some (st, "+Missing filepath argument!\r\n")
  | some path =>
      match rustproxy_load_config st loadResult with
      | none => none
      | some st2 => some (st2, "+" ++ path ++ "\r\n")

/-- rustproxy.rs: `const FIRST_SOCKET_INDEX: usize = 10;` -/
def FIRST_SOCKET_INDEX : Nat := 10

/-- rustproxy.rs: `pub const SOCKET_INDEX_SHIFT: usize = 2;` -/
def SOCKET_INDEX_SHIFT : Nat := 2

/-- rustproxy.rs `generate_client_token` (and equally `generate_backend_token`,
`RustProxy::get_socket_index` and admin.rs `accept_client_connection`):
advance the shared counter by `SOCKET_INDEX_SHIFT` and mint the new counter
value as the token. Returns (new counter, minted token). -/
def generate_client_token (next_socket_index : Nat) : Nat × Nat :=
  (next_socket_index + SOCKET_INDEX_SHIFT, next_socket_index + SOCKET_INDEX_SHIFT)

/-- The shared counter after `n` mints, starting at `FIRST_SOCKET_INDEX`. -/
def counterAfter : Nat → Nat
  | 0 => FIRST_SOCKET_INDEX
  | n + 1 => (generate_client_token (counterAfter n)).1

/-- The `n`-th minted token (0-indexed). -/
def minted (n : Nat) : Nat :=
  (generate_client_token (counterAfter n)).2

theorem lookupA_insertA_self {α : Type} (m : List (Nat × α)) (k : Nat) (v : α) :
    lookupA (insertA m k v) k = some v := by
  induction m with
  | nil => simp [insertA, lookupA]
  | cons p rest ih =>
      obtain ⟨k2, v2⟩ := p
      by_cases h : k2 = k
      · simp [insertA, lookupA, h]
      · simp [insertA, lookupA, h, ih]

theorem lookupA_insertA_ne {α : Type} (m : List (Nat × α)) (k k2 : Nat) (v : α)
    (h : k ≠ k2) : lookupA (insertA m k v) k2 = lookupA m k2 := by
  induction m with
  | nil => simp [insertA, lookupA, h]
  | cons p rest ih =>
      obtain ⟨k3, v3⟩ := p
      by_cases h3 : k3 = k
      · subst h3
        simp [insertA, lookupA, h]
      · simp [insertA, lookupA, h3, ih]

theorem lookupA_removeA_self {α : Type} (m : List (Nat × α)) (k : Nat) :
    lookupA (removeA m k) k = none := by
  induction m with
  | nil => simp [removeA, lookupA]
  | cons p rest ih =>
      obtain ⟨k2, v2⟩ := p
      by_cases h : k2 = k
      · simp [removeA, h, ih]
      · simp [removeA, lookupA, h, ih]

theorem lookupA_removeA_ne {α : Type} (m : List (Nat × α)) (k k2 : Nat)
    (h : k ≠ k2) : lookupA (removeA m k) k2 = lookupA m k2 := by
  induction m with
  | nil => simp [removeA]
  | cons p rest ih =>
      obtain ⟨k3, v3⟩ := p
      by_cases h3 : k3 = k
      · subst h3
        simp [removeA, lookupA, h, ih]
      · simp [removeA, lookupA, h3, ih]

theorem write_to_stream_eq (st : SingleBackend) (env : Env) (c : Nat) (m : String)
    (now : Nat) (s : List String) (h : st.socket = some s) :
    write_to_stream st env c m now =
      some ({ st with socket := some (s ++ [m]),
                      queue := st.queue ++ [(c, now + st.timeout)] },
            { env with writtenSockets := env.writtenSockets ++ [(st.token, StreamType.PoolServer)] }) := by
  simp [write_to_stream, h]

theorem write_to_stream_pres (st : SingleBackend) (env : Env) (c : Nat) (m : String)
    (now : Nat) (st2 : SingleBackend) (env2 : Env)
    (h : write_to_stream st env c m now = some (st2, env2)) :
    st2.status = st.status ∧ st2.socket.isSome = true ∧ st2.token = st.token ∧
      st2.auth = st.auth ∧ st2.db = st.db := by
  unfold write_to_stream at h
  cases hs : st.socket with
  | none => simp [hs] at h
  | some s =>
      simp [hs] at h
      obtain ⟨h1, h2⟩ := h
      subst h1
      simp

theorem handle_connection_pres (st : SingleBackend) (env : Env) (now : Nat)
    (st2 : SingleBackend) (env2 : Env)
    (h : handle_connection st env now = some (st2, env2)) :
    st2.status = st.status ∧ st2.socket.isSome = st.socket.isSome ∧ st2.token = st.token := by
  unfold handle_connection at h
  by_cases ha : st.auth = ""
  · by_cases hd : st.db = 0
    · simp [ha, hd] at h
      obtain ⟨h1, h2⟩ := h
      subst h1
      simp
    · cases hs : st.socket with
      | none => simp [ha, hd, write_to_stream, hs] at h
      | some s =>
          simp [ha, hd, write_to_stream, hs] at h
          obtain ⟨h1, h2⟩ := h
          subst h1
          simp [hs]
  · cases hs : st.socket with
    | none => simp [ha, write_to_stream, hs] at h
    | some s =>
        simp [ha, write_to_stream, hs] at h
        by_cases hd : st.db = 0
        · simp [hd] at h
          obtain ⟨h1, h2⟩ := h
          subst h1
          simp [hs]
        · simp [hd] at h
          obtain ⟨h1, h2⟩ := h
          subst h1
          simp [hs]

theorem handle_connection_isSome (st : SingleBackend) (env : Env) (now : Nat)
    (s : List String) (hs : st.socket = some s) :
    (handle_connection st env now).isSome = true := by
  unfold handle_connection
  by_cases ha : st.auth = ""
  · by_cases hd : st.db = 0 <;> simp [ha, hd, write_to_stream, hs]
  · by_cases hd : st.db = 0 <;> simp [ha, hd, write_to_stream, hs]

/-- C8: for a single backend, a state change to the current status is a
successful no-op; the four transitions DISCONNECTED to CONNECTING, CONNECTING
to CONNECTED, CONNECTING to DISCONNECTED and CONNECTED to DISCONNECTED succeed
and install the target status (the CONNECTING to CONNECTED edge needs the
socket the invariant guarantees there, since its hook writes to it); every
other requested transition panics rather than being silently applied, so
reachable statuses only ever follow these four edges. -/
theorem change_state_spec (st : SingleBackend) (env : Env) (now : Nat) (target : Status) :
    (st.status = target → change_state st env now target = some (st, env, true)) ∧
    (st.status ≠ target → allowed_edge st.status target = false →
      change_state st env now target = none) ∧
    (st.status ≠ target → allowed_edge st.status target = true →
      (st.status = Status.CONNECTING → target = Status.CONNECTED →
        ∃ s, st.socket = some s) →
      ∃ st2 env2, change_state st env now target = some (st2, env2, true) ∧
        st2.status = target) := by
  refine ⟨fun h => by simp [change_state, h], ?_, ?_⟩
  · intro hne hedge
    unfold change_state
    cases hst : st.status <;> cases target <;> simp_all [allowed_edge]
  · intro hne hedge hsock
    unfold change_state
    cases hst : st.status <;> cases htg : target <;> simp_all [allowed_edge]
    obtain ⟨s, hs⟩ := hsock
    have hi := handle_connection_isSome st env now s hs
    obtain ⟨⟨st2, env2⟩, hp⟩ := Option.isSome_iff_exists.mp hi
    have hstat := (handle_connection_pres st env now st2 env2 hp).1
    rw [hp]
    simp

/-- A concrete CONNECTED backend used by witnesses. -/
def stConnected : SingleBackend :=
  { token := 12, status := Status.CONNECTED, queue := [], failure_limit := 2,
    retry_timeout := 50, failure_count := 0, auth := "", db := 0,
    parentToken := 10, socket := some [], timer := none, timeout := 100 }

/-- A concrete DISCONNECTED backend used by witnesses. -/
def stDisc : SingleBackend := SingleBackend.mkNew 12 100 2 50 "" 0 10

/-- A concrete environment used by witnesses: one pool client at token 14,
the backend registered as a subscriber. -/
def envW : Env :=
  { clients := [(14, [])], writtenSockets := [],
    subscribers := [(12, Subscriber.PoolServer 10)] }

/-- C8 witness: the DISCONNECTED to CONNECTING edge at a concrete backend. -/
theorem change_state_spec_witness :
    (stDisc.status ≠ Status.CONNECTING ∧ allowed_edge stDisc.status Status.CONNECTING = true) ∧
    ∃ st2 env2, change_state stDisc envW 0 Status.CONNECTING = some (st2, env2, true) ∧
      st2.status = Status.CONNECTING :=
  ⟨⟨by decide, by decide⟩,
   (change_state_spec stDisc envW 0 Status.CONNECTING).2.2 (by decide) (by decide)
     (fun h _ => absurd h (by decide))⟩

/-- C3: a single backend write fails (returns `false`, the `NotAvailable`
outcome) with queue, socket and environment untouched whenever the status is
not CONNECTED; when CONNECTED it writes the frame to the buffered stream,
records the deferred-flush entry `(token, PoolServer)`, appends exactly one
entry `(client_token, now + timeout)` at the back of the in-flight queue, and
returns `true`. -/
theorem write_spec (st : SingleBackend) (env : Env) (message : String)
    (client_token now : Nat) :
    (st.status ≠ Status.CONNECTED →
      SingleBackend.write st env message client_token now = some (st, env, false)) ∧
    (∀ s, st.status = Status.CONNECTED → st.socket = some s →
      SingleBackend.write st env message client_token now =
        some ({ st with socket := some (s ++ [message]),
                        queue := st.queue ++ [(client_token, now + st.timeout)] },
              { env with writtenSockets :=
                  env.writtenSockets ++ [(st.token, StreamType.PoolServer)] },
              true)) := by
  constructor
  · intro h
    unfold SingleBackend.write
    cases hst : st.status <;> simp_all
  · intro s hc hs
    simp [SingleBackend.write, hc, write_to_stream, hs]

/-- C3 witness: a concrete CONNECTED write. -/
theorem write_spec_witness :
    (stConnected.status = Status.CONNECTED ∧ stConnected.socket = some []) ∧
    SingleBackend.write stConnected envW "PING" 14 7 =
      some ({ stConnected with socket := some ([] ++ ["PING"]),
                               queue := stConnected.queue ++ [(14, 7 + stConnected.timeout)] },
            { envW with writtenSockets :=
                envW.writtenSockets ++ [(stConnected.token, StreamType.PoolServer)] },
            true) :=
  ⟨⟨rfl, rfl⟩, (write_spec stConnected envW "PING" 14 7).2 [] rfl rfl⟩

/-- A concrete CONNECTING backend with configured password "secret" and
db 5, used to exhibit the post-connection hook behaviour. -/
def stAuth : SingleBackend :=
  { token := 12, status := Status.CONNECTING, queue := [], failure_limit := 2,
    retry_timeout := 50, failure_count := 0, auth := "secret", db := 5,
    parentToken := 10, socket := some [], timer := none, timeout := 100 }

/-- C6: on the CONNECTING to CONNECTED transition with `auth = "secret"` and
`db = 5`, the hook enqueues the literal frames `"AUTH pass"` and
`"SELECT self.config.db"` (the configured password and db number appear in
neither frame), each under `NULL_TOKEN`. -/
theorem handle_connection_literal_frames :
    (change_state stAuth envW 7 Status.CONNECTED).map
        (fun p => (p.1.status, p.1.socket, p.1.queue)) =
      some (Status.CONNECTED, some ["AUTH pass", "SELECT self.config.db"],
            [(NULL_TOKEN, 107), (NULL_TOKEN, 107)]) := rfl

/-- A concrete CONNECTED backend with one in-flight request from client 14,
deadline 5. -/
def stTimeout : SingleBackend :=
  { token := 12, status := Status.CONNECTED, queue := [(14, 5)], failure_limit := 2,
    retry_timeout := 50, failure_count := 0, auth := "", db := 0,
    parentToken := 10, socket := some [], timer := none, timeout := 100 }

/-- C2 counterexample: the timeout handler firing at instant 7 on a head with
deadline 5 (strictly earlier) writes the error and then panics (modelled
`none`) instead of logging the invariant violation and continuing. -/
theorem handle_timeout_earlier_deadline_panics :
    handle_timeout stTimeout envW 7 = none := rfl

/-- C2 (amended): when the timeout handler fires on a backend that is not
DISCONNECTED, a head deadline still in the future is a no-op returning
`false`; a deadline exactly equal to the instant counts as expired — the head
client is sent `-ERR RustProxy timed out\r\n`, the head stays in the queue,
and the consecutive-failure counter is bumped when `failure_limit > 0`
(returning `true` once it exceeds the limit); a head deadline strictly
earlier than the instant writes the same error and then panics. -/
theorem handle_timeout_spec (st : SingleBackend) (env : Env) (ts c t : Nat)
    (s : List String)
    (hst : st.status ≠ Status.DISCONNECTED)
    (hq : st.queue.head? = some (c, t))
    (hc : lookupA env.clients c = some s) :
    (ts < t → handle_timeout st env ts = some (st, env, false)) ∧
    (ts = t →
      handle_timeout st env ts =
        some ((if 0 < st.failure_limit then
                { st with failure_count := st.failure_count + 1 } else st),
              { env with
                  clients := insertA env.clients c (s ++ ["-ERR RustProxy timed out\r\n"]),
                  writtenSockets := env.writtenSockets ++ [(c, StreamType.PoolClient)] },
              (if 0 < st.failure_limit ∧ st.failure_limit < st.failure_count + 1
               then true else false))) ∧
    (t < ts → handle_timeout st env ts = none) := by
  refine ⟨?_, ?_, ?_⟩
  · intro h
    unfold handle_timeout
    rw [if_neg hst, hq]
    simp [h]
  · intro h
    subst h
    unfold handle_timeout
    rw [if_neg hst, hq]
    simp [write_to_client, hc]
    by_cases hl : 0 < st.failure_limit
    · by_cases hcmp : st.failure_limit < st.failure_count + 1 <;> simp [hl, hcmp]
    · simp [hl]
  · intro h
    unfold handle_timeout
    rw [if_neg hst, hq]
    have h1 : ¬(ts < t) := by omega
    have h2 : ¬(ts = t) := by omega
    simp [h1, h2, write_to_client, hc]

/-- C2 witness: a deadline exactly equal to the firing instant at a concrete
backend. -/
theorem handle_timeout_spec_witness :
    (stTimeout.status ≠ Status.DISCONNECTED ∧ stTimeout.queue.head? = some (14, 5) ∧
        lookupA envW.clients 14 = some []) ∧
    handle_timeout stTimeout envW 5 =
      some ({ stTimeout with failure_count := 1 },
            { envW with
                clients := insertA envW.clients 14 ([] ++ ["-ERR RustProxy timed out\r\n"]),
                writtenSockets := envW.writtenSockets ++ [(14, StreamType.PoolClient)] },
            false) :=
  ⟨⟨by decide, rfl, rfl⟩,
   (handle_timeout_spec stTimeout envW 5 14 5 [] (by decide) rfl rfl).2.1 rfl⟩

/-- A concrete CONNECTED backend whose in-flight head is an internal
(`NULL_TOKEN`) request. -/
def stNullHead : SingleBackend :=
  { token := 12, status := Status.CONNECTED, queue := [(NULL_TOKEN, 5)],
    failure_limit := 2, retry_timeout := 50, failure_count := 0, auth := "",
    db := 0, parentToken := 10, socket := some [], timer := none, timeout := 100 }

/-- C1 counterexample: a complete framed response whose queue head carries
`NULL_TOKEN` is not routed internally — the head token is looked up in the
pool client map like any other, the lookup fails, and the process panics
(modelled `none`). -/
theorem handle_backend_response_null_head_panics :
    handle_backend_response stNullHead envW ["+OK\r\n"] 0 = none := rfl

/-- C1 (amended): handling backend readability on a CONNECTED single backend
runs the pairing loop; the loop pairs each complete framed response with the
head of the in-flight queue in FIFO order — the head is popped and the
response is written to that entry client stream found in the parent pool map
(a NULL_TOKEN head takes the same path and panics on the failed lookup,
instead of internal routing) — and an incomplete (empty) frame, or an empty
queue, stops processing with the remaining queue unchanged. -/
theorem handle_backend_response_fifo (st : SingleBackend) (env : Env)
    (rs rest : List String) (r : String) (c d : Nat) (qrest : List (Nat × Nat))
    (s : List String) (now : Nat) :
    (st.status = Status.CONNECTED →
      handle_backend_response st env rs now = hbr_loop rs st env) ∧
    (st.queue = [] → hbr_loop rs st env = some (st, env)) ∧
    (st.queue ≠ [] → hbr_loop ("" :: rest) st env = some (st, env)) ∧
    (r ≠ "" → lookupA env.clients c = some s →
      hbr_loop (r :: rest) { st with queue := (c, d) :: qrest } env =
        hbr_loop rest { st with queue := qrest }
          { env with
              clients := insertA env.clients c (s ++ [r]),
              writtenSockets := env.writtenSockets ++ [(c, StreamType.PoolClient)] }) := by
  refine ⟨?_, ?_, ?_, ?_⟩
  · intro h
    simp [handle_backend_response, change_state, h]
  · intro h
    unfold hbr_loop
    rw [h]
  · intro h
    cases hq : st.queue with
    | nil => exact absurd hq h
    | cons p q =>
        obtain ⟨c2, d2⟩ := p
        unfold hbr_loop
        rw [hq]
        simp
  · intro hr hc
    conv_lhs => unfold hbr_loop
    simp [hr, write_to_client, hc]

/-- C1 witness: one complete frame paired with a concrete head for client 14. -/
theorem handle_backend_response_fifo_witness :
    ("+OK\r\n" ≠ "" ∧ lookupA envW.clients 14 = some []) ∧
    hbr_loop ["+OK\r\n"] stTimeout envW =
      hbr_loop [] { stTimeout with queue := [] }
        { envW with
            clients := insertA envW.clients 14 ([] ++ ["+OK\r\n"]),
            writtenSockets := envW.writtenSockets ++ [(14, StreamType.PoolClient)] } :=
  ⟨⟨by decide, rfl⟩,
   (handle_backend_response_fifo stTimeout envW ["+OK\r\n"] [] "+OK\r\n" 14 5 [] [] 0).2.2.2
     (by decide) rfl⟩

theorem drain_queue_pres (q : List (Nat × Nat)) :
    ∀ clients ws clients2 ws2 c s,
      drain_queue clients ws q = some (clients2, ws2) →
      lookupA clients c = some s →
      ∃ s2, lookupA clients2 c = some s2 ∧ ∀ m ∈ s, m ∈ s2 := by
  induction q with
  | nil =>
      intro clients ws clients2 ws2 c s h hc
      simp [drain_queue] at h
      obtain ⟨h1, h2⟩ := h
      subst h1
      exact ⟨s, hc, fun m hm => hm⟩
  | cons p rest ih =>
      intro clients ws clients2 ws2 c s h hc
      obtain ⟨c1, d1⟩ := p
      unfold drain_queue at h
      by_cases h0 : c1 = NULL_TOKEN
      · rw [if_pos h0] at h
        exact ih clients ws clients2 ws2 c s h hc
      · rw [if_neg h0] at h
        cases h1 : lookupA clients c1 with
        | none => rw [h1] at h; exact absurd h (by simp)
        | some s1 =>
            rw [h1] at h
            by_cases hcc : c1 = c
            · subst hcc
              rw [hc] at h1
              obtain rfl : s = s1 := by injection h1
              obtain ⟨s2, hl2, hsub⟩ :=
                ih _ _ clients2 ws2 c1 (s ++ [unavailableMsg]) h
                  (lookupA_insertA_self clients c1 (s ++ [unavailableMsg]))
              exact ⟨s2, hl2, fun m hm => hsub m (by simp [hm])⟩
            · obtain ⟨s2, hl2, hsub⟩ :=
                ih _ _ clients2 ws2 c s h
                  (by rw [lookupA_insertA_ne clients c1 c (s1 ++ [unavailableMsg]) hcc]
                      exact hc)
              exact ⟨s2, hl2, hsub⟩

theorem drain_queue_mem (q : List (Nat × Nat)) :
    ∀ clients ws clients2 ws2,
      drain_queue clients ws q = some (clients2, ws2) →
      ∀ p ∈ q, p.1 ≠ NULL_TOKEN →
        unavailableMsg ∈ (lookupA clients2 p.1).getD [] := by
  induction q with
  | nil => intro clients ws clients2 ws2 h p hp; simp at hp
  | cons hd rest ih =>
      intro clients ws clients2 ws2 h p hp hnull
      obtain ⟨c1, d1⟩ := hd
      unfold drain_queue at h
      rcases List.mem_cons.mp hp with hhd | htl
      · subst hhd
        have hnull2 : c1 ≠ NULL_TOKEN := hnull
        rw [if_neg hnull2] at h
        cases h1 : lookupA clients c1 with
        | none => rw [h1] at h; exact absurd h (by simp)
        | some s1 =>
            rw [h1] at h
            obtain ⟨s2, hl2, hsub⟩ :=
              drain_queue_pres rest _ _ clients2 ws2 c1 (s1 ++ [unavailableMsg]) h
                (lookupA_insertA_self clients c1 (s1 ++ [unavailableMsg]))
            show unavailableMsg ∈ (lookupA clients2 c1).getD []
            rw [hl2]
            exact hsub unavailableMsg (by simp)
      · by_cases h0 : c1 = NULL_TOKEN
        · rw [if_pos h0] at h
          exact ih clients ws clients2 ws2 h p htl hnull
        · rw [if_neg h0] at h
          cases h1 : lookupA clients c1 with
          | none => rw [h1] at h; exact absurd h (by simp)
          | some s1 =>
              rw [h1] at h
              exact ih _ _ clients2 ws2 h p htl hnull

theorem record_eta_status (st : SingleBackend) (s : Status) (h : st.status = s) :
    ({ st with status := s } : SingleBackend) = st := by
  cases st
  simp_all

theorem change_state_disc (st : SingleBackend) (env : Env) (now : Nat)
    (st2 : SingleBackend) (env2 : Env) (b : Bool)
    (h : change_state st env now Status.DISCONNECTED = some (st2, env2, b)) :
    st2 = { st with status := Status.DISCONNECTED } ∧ env2 = env := by
  unfold change_state at h
  by_cases hst : st.status = Status.DISCONNECTED
  · rw [if_pos hst] at h
    have h2 := Option.some.inj h
    have hst2 : st = st2 := congrArg Prod.fst h2
    have henv : env = env2 := congrArg (fun p => p.2.1) h2
    refine ⟨?_, henv.symm⟩
    rw [← hst2]
    exact (record_eta_status st Status.DISCONNECTED hst).symm
  · rw [if_neg hst] at h
    cases hs : st.status with
    | CONNECTED =>
        rw [hs] at h
        simp at h
        exact ⟨h.1.symm, h.2.1.symm⟩
    | DISCONNECTED => exact absurd hs hst
    | CONNECTING =>
        rw [hs] at h
        simp at h
        exact ⟨h.1.symm, h.2.1.symm⟩
    | LOADING =>
        rw [hs] at h
        simp at h

theorem mark_backend_down_spec (st : SingleBackend) (env : Env) (now : Nat)
    (stm : SingleBackend) (envm : Env)
    (h : mark_backend_down st env now = some (stm, envm)) :
    ∃ clients2 ws2,
      drain_queue env.clients env.writtenSockets st.queue = some (clients2, ws2) ∧
      stm = { st with status := Status.DISCONNECTED, queue := [], socket := none } ∧
      envm = { clients := clients2, writtenSockets := ws2,
               subscribers := removeA
                 (if st.status = Status.CONNECTED then
                    removeA env.subscribers (st.token - 1)
                  else env.subscribers) st.token } := by
  unfold mark_backend_down at h
  cases hcs : change_state st (mbd_env1 st env) now Status.DISCONNECTED with
  | none => rw [hcs] at h; exact absurd h (by simp)
  | some trip =>
      obtain ⟨st2, env2, b⟩ := trip
      rw [hcs] at h
      obtain ⟨hst2, henv2⟩ := change_state_disc st (mbd_env1 st env) now st2 env2 b hcs
      subst hst2
      subst henv2
      have hc1 : (mbd_env1 st env).clients = env.clients := by
        unfold mbd_env1; by_cases hcon : st.status = Status.CONNECTED <;> simp [hcon]
      have hw1 : (mbd_env1 st env).writtenSockets = env.writtenSockets := by
        unfold mbd_env1; by_cases hcon : st.status = Status.CONNECTED <;> simp [hcon]
      have hs1 : (mbd_env1 st env).subscribers =
          (if st.status = Status.CONNECTED then
             removeA env.subscribers (st.token - 1)
           else env.subscribers) := by
        unfold mbd_env1; by_cases hcon : st.status = Status.CONNECTED <;> simp [hcon]
      dsimp only at h
      rw [hc1, hw1] at h
      cases hd : drain_queue env.clients env.writtenSockets st.queue with
      | none => rw [hd] at h; exact absurd h (by simp)
      | some cw =>
          obtain ⟨clients2, ws2⟩ := cw
          rw [hd] at h
          simp at h
          refine ⟨clients2, ws2, rfl, ?_, ?_⟩
          · rw [← h.1]
          · rw [← h.2]
            simp [hs1]

/-- C4: when the failure handler completes on a single backend, the in-flight
queue is empty, every drained entry with a non-NULL_TOKEN client that is
present in the pool client map has been sent `-ERR: Unavailable backend.\r\n`
(entries with absent clients make the handler panic instead of completing),
the socket is dropped, the status is DISCONNECTED, the backend subscriber
entry is removed, and a one-shot reconnect timer is installed under the
derived token `token + 1`. -/
theorem handle_backend_failure_spec (st : SingleBackend) (env : Env) (now : Nat)
    (st2 : SingleBackend) (env2 : Env)
    (h : handle_backend_failure st env now = some (st2, env2)) :
    st2.queue = [] ∧ st2.socket = none ∧ st2.status = Status.DISCONNECTED ∧
    st2.timer = some () ∧
    lookupA env2.subscribers (st.token + 1) =
      some (Subscriber.Timeout st.parentToken) ∧
    lookupA env2.subscribers st.token = none ∧
    (∀ p ∈ st.queue, p.1 ≠ NULL_TOKEN →
      unavailableMsg ∈ (lookupA env2.clients p.1).getD []) := by
  unfold handle_backend_failure at h
  cases hm : mark_backend_down st env now with
  | none => rw [hm] at h; exact absurd h (by simp)
  | some pr =>
      obtain ⟨stm, envm⟩ := pr
      rw [hm] at h
      have hpr := Option.some.inj h
      have hst2 := congrArg Prod.fst hpr
      have henv2 := congrArg Prod.snd hpr
      subst hst2
      subst henv2
      obtain ⟨clients2, ws2, hdq, hstm, henvm⟩ :=
        mark_backend_down_spec st env now stm envm hm
      subst hstm
      subst henvm
      refine ⟨?_, ?_, ?_, ?_, ?_, ?_, ?_⟩
      · simp [retry_connect]
      · simp [retry_connect]
      · simp [retry_connect]
      · simp [retry_connect]
      · simp [retry_connect, lookupA_insertA_self]
      · simp only [retry_connect]
        rw [lookupA_insertA_ne _ _ _ _ (by omega)]
        simp [lookupA_removeA_self]
      · intro p hp hnull
        simp only [retry_connect]
        exact drain_queue_mem st.queue env.clients env.writtenSockets clients2 ws2
          hdq p hp hnull

/-- A concrete CONNECTED backend with one client entry and one internal entry
in flight, used for the failure-handler witness. -/
def stFail : SingleBackend :=
  { token := 12, status := Status.CONNECTED, queue := [(14, 5), (NULL_TOKEN, 6)],
    failure_limit := 2, retry_timeout := 50, failure_count := 0, auth := "",
    db := 0, parentToken := 10, socket := some [], timer := none, timeout := 100 }

/-- The backend state after the failure handler runs on `stFail`. -/
def stFail2 : SingleBackend :=
  { token := 12, status := Status.DISCONNECTED, queue := [], failure_limit := 2,
    retry_timeout := 50, failure_count := 0, auth := "", db := 0,
    parentToken := 10, socket := none, timer := some (), timeout := 100 }

/-- The environment after the failure handler runs on `stFail` in `envW`. -/
def envFail2 : Env :=
  { clients := [(14, [unavailableMsg])],
    writtenSockets := [(14, StreamType.PoolClient)],
    subscribers := [(13, Subscriber.Timeout 10)] }

/-- C4 witness: the failure handler at a concrete backend and environment. -/
theorem handle_backend_failure_spec_witness :
    handle_backend_failure stFail envW 0 = some (stFail2, envFail2) ∧
    (stFail2.queue = [] ∧ stFail2.socket = none ∧
      stFail2.status = Status.DISCONNECTED ∧ stFail2.timer = some () ∧
      lookupA envFail2.subscribers (stFail.token + 1) =
        some (Subscriber.Timeout stFail.parentToken) ∧
      lookupA envFail2.subscribers stFail.token = none ∧
      (∀ p ∈ stFail.queue, p.1 ≠ NULL_TOKEN →
        unavailableMsg ∈ (lookupA envFail2.clients p.1).getD [])) :=
  ⟨rfl, handle_backend_failure_spec stFail envW 0 stFail2 envFail2 rfl⟩

theorem change_state_pres (st : SingleBackend) (env : Env) (now : Nat) (t : Status)
    (st2 : SingleBackend) (env2 : Env) (b : Bool)
    (h : change_state st env now t = some (st2, env2, b)) :
    st2.status = t ∧ st2.socket.isSome = st.socket.isSome ∧
      (st.status = t ∨ allowed_edge st.status t = true) := by
  unfold change_state at h
  by_cases hsame : st.status = t
  · rw [if_pos hsame] at h
    have h1 : st = st2 := congrArg Prod.fst (Option.some.inj h)
    refine ⟨?_, ?_, Or.inl hsame⟩
    · rw [← h1]; exact hsame
    · rw [← h1]
  · rw [if_neg hsame] at h
    cases hst : st.status <;> cases ht : t <;> rw [hst, ht] at h
    all_goals first
      | (simp at h
         exact ⟨by rw [← h.1], by rw [← h.1], Or.inr rfl⟩)
      | (simp at h
         done)
      | skip
    cases hc : handle_connection st env now with
    | none => rw [hc] at h; exact absurd h (by simp)
    | some pr =>
        obtain ⟨sth, envh⟩ := pr
        rw [hc] at h
        simp at h
        obtain ⟨hp1, hp2, _⟩ := handle_connection_pres st env now sth envh hc
        refine ⟨?_, ?_, Or.inr rfl⟩
        · rw [← h.1]
        · rw [← h.1]; exact hp2

theorem hbr_loop_pres (rs : List String) :
    ∀ st env st2 env2, hbr_loop rs st env = some (st2, env2) →
      st2.socket = st.socket ∧ st2.status = st.status := by
  induction rs with
  | nil =>
      intro st env st2 env2 h
      unfold hbr_loop at h
      cases hq : st.queue with
      | nil => rw [hq] at h; simp at h; exact ⟨by rw [← h.1], by rw [← h.1]⟩
      | cons p qrest =>
          obtain ⟨c, d⟩ := p
          rw [hq] at h
          simp at h
          exact ⟨by rw [← h.1], by rw [← h.1]⟩
  | cons r rest ih =>
      intro st env st2 env2 h
      unfold hbr_loop at h
      cases hq : st.queue with
      | nil => rw [hq] at h; simp at h; exact ⟨by rw [← h.1], by rw [← h.1]⟩
      | cons p qrest =>
          obtain ⟨c, d⟩ := p
          rw [hq] at h
          dsimp only at h
          by_cases hr : r = ""
          · rw [if_pos hr] at h
            simp at h
            exact ⟨by rw [← h.1], by rw [← h.1]⟩
          · rw [if_neg hr] at h
            cases hw : write_to_client env c r with
            | none => rw [hw] at h; exact absurd h (by simp)
            | some env3 =>
                rw [hw] at h
                dsimp only at h
                exact ih { st with queue := qrest } env3 st2 env2 h

theorem handle_timeout_pres (st : SingleBackend) (env : Env) (ts : Nat)
    (st2 : SingleBackend) (env2 : Env) (b : Bool)
    (h : handle_timeout st env ts = some (st2, env2, b)) :
    st2.socket = st.socket ∧ st2.status = st.status := by
  unfold handle_timeout at h
  repeat' split at h
  all_goals simp_all
  all_goals exact ⟨by rw [← h.1], by rw [← h.1]⟩

/-- The socket/status invariant of the spec: a single backend has a socket
exactly when its status is CONNECTING or CONNECTED. -/
def socket_inv (st : SingleBackend) : Prop :=
  st.socket.isSome = true ↔
    (st.status = Status.CONNECTING ∨ st.status = Status.CONNECTED)

theorem socket_inv_of (st : SingleBackend) (hs : st.socket.isSome = true)
    (hstat : st.status = Status.CONNECTING ∨ st.status = Status.CONNECTED) :
    socket_inv st :=
  Iff.intro (fun _ => hstat) (fun _ => hs)

theorem socket_inv_transport (st st2 : SingleBackend) (hinv : socket_inv st)
    (hs : st2.socket = st.socket) (hstat : st2.status = st.status) :
    socket_inv st2 := by
  unfold socket_inv at hinv ⊢
  rw [hs, hstat]
  exact hinv

theorem edge_to_connected (s : Status)
    (h : allowed_edge s Status.CONNECTED = true) : s = Status.CONNECTING := by
  cases s <;> simp_all [allowed_edge]

/-- C9: the invariant `socket.is_some ⇔ status ∈ {CONNECTING, CONNECTED}`
holds of a freshly constructed backend and is preserved by `connect`,
`write`, response handling, timeout handling and `mark_backend_down`,
whenever the operation completes. -/
theorem socket_inv_preserved (st : SingleBackend) (env : Env) (now ts c : Nat)
    (msg : String) (rs : List String) (tk tmo fl rt db pt : Nat) (auth : String) :
    socket_inv (SingleBackend.mkNew tk tmo fl rt auth db pt) ∧
    (socket_inv st → ∀ st2 env2,
      connect st env now = some (st2, env2) → socket_inv st2) ∧
    (socket_inv st → ∀ st2 env2 b,
      SingleBackend.write st env msg c now = some (st2, env2, b) → socket_inv st2) ∧
    (socket_inv st → ∀ st2 env2,
      handle_backend_response st env rs now = some (st2, env2) → socket_inv st2) ∧
    (socket_inv st → ∀ st2 env2 b,
      handle_timeout st env ts = some (st2, env2, b) → socket_inv st2) ∧
    (socket_inv st → ∀ st2 env2,
      mark_backend_down st env now = some (st2, env2) → socket_inv st2) := by
  refine ⟨?_, ?_, ?_, ?_, ?_, ?_⟩
  · simp [socket_inv, SingleBackend.mkNew]
  · intro hinv st2 env2 h
    unfold connect at h
    by_cases hcon : st.status = Status.CONNECTED
    · rw [if_pos hcon] at h
      simp at h
      exact socket_inv_transport st st2 hinv (by rw [← h.1]) (by rw [← h.1])
    · rw [if_neg hcon] at h
      cases hcs : change_state st env now Status.CONNECTING with
      | none => rw [hcs] at h; exact absurd h (by simp)
      | some trip =>
          obtain ⟨stc, envc, bc⟩ := trip
          rw [hcs] at h
          dsimp only at h
          simp at h
          obtain ⟨hstat, _, _⟩ :=
            change_state_pres st env now Status.CONNECTING stc envc bc hcs
          refine socket_inv_of st2 ?_ ?_
          · rw [← h.1]
            simp
          · rw [← h.1]
            exact Or.inl hstat
  · intro hinv st2 env2 b h
    unfold SingleBackend.write at h
    cases hst : st.status <;> rw [hst] at h <;> dsimp only at h
    case CONNECTED =>
        cases hw : write_to_stream st env c msg now with
        | none => rw [hw] at h; exact absurd h (by simp)
        | some pr =>
            obtain ⟨stw, envw⟩ := pr
            rw [hw] at h
            simp at h
            obtain ⟨hp1, hp2, _⟩ := write_to_stream_pres st env c msg now stw envw hw
            refine socket_inv_of st2 ?_ ?_
            · rw [← h.1]; exact hp2
            · rw [← h.1]
              exact Or.inr (hp1.trans hst)
    all_goals
      (simp at h
       exact socket_inv_transport st st2 hinv (by rw [← h.1]) (by rw [← h.1]))
  · intro hinv st2 env2 h
    unfold handle_backend_response at h
    cases hcs : change_state st env now Status.CONNECTED with
    | none => rw [hcs] at h; exact absurd h (by simp)
    | some trip =>
        obtain ⟨stc, envc, bc⟩ := trip
        rw [hcs] at h
        dsimp only at h
        obtain ⟨hstat, hsock, horig⟩ :=
          change_state_pres st env now Status.CONNECTED stc envc bc hcs
        have hstc : stc.socket.isSome = true := by
          rw [hsock]
          apply hinv.mpr
          rcases horig with horig | horig
          · exact Or.inr horig
          · exact Or.inl (edge_to_connected st.status horig)
        obtain ⟨hl1, hl2⟩ := hbr_loop_pres rs stc envc st2 env2 h
        refine socket_inv_of st2 ?_ ?_
        · rw [hl1]; exact hstc
        · rw [hl2, hstat]
          exact Or.inr rfl
  · intro hinv st2 env2 b h
    obtain ⟨hp1, hp2⟩ := handle_timeout_pres st env ts st2 env2 b h
    exact socket_inv_transport st st2 hinv hp1 hp2
  · intro hinv st2 env2 h
    obtain ⟨clients2, ws2, _, hstm, _⟩ := mark_backend_down_spec st env now st2 env2 h
    rw [hstm]
    simp [socket_inv]

/-- C9 witness: the invariant at a concrete CONNECTED backend and its
preservation through a concrete `write`. -/
theorem socket_inv_preserved_witness :
    socket_inv stConnected ∧
    socket_inv { stConnected with socket := some ([] ++ ["PING"]),
                                  queue := stConnected.queue ++ [(14, 107)] } :=
  ⟨by simp [socket_inv, stConnected],
   (socket_inv_preserved stConnected envW 7 0 14 "PING" [] 12 100 2 50 0 10 "").2.2.1
     (by simp [socket_inv, stConnected])
     { stConnected with socket := some ([] ++ ["PING"]),
                        queue := stConnected.queue ++ [(14, 107)] }
     { envW with writtenSockets :=
         envW.writtenSockets ++ [(stConnected.token, StreamType.PoolServer)] }
     true rfl⟩

set_option maxRecDepth 8000

/-- Validation of the CRC16/XMODEM embedding against the standard check value
and the slot assignments the spec quotes for keys "foo" and "bar". -/
theorem crc16_xmodem_check :
    crc16_xmodem (strBytes "123456789") = 12739 ∧
    crc16_xmodem (strBytes "foo") % 16384 = 12182 ∧
    crc16_xmodem (strBytes "bar") % 16384 = 5061 := by
  refine ⟨?_, ?_, ?_⟩ <;> decide

/-- C5: for every framed cluster request from which the codec extracts a
single key, `get_shard` returns the backend token registered for the host
stored at slot index `crc16_xmodem(key) mod 16384` of the slot vector. -/
theorem get_shard_spec (slots : List String) (hostnames : List (String × Nat))
    (message k : List Nat)
    (h : extract_key message = some (KeyPos.Single k)) :
    get_shard slots hostnames message =
      (slots.get? (crc16_xmodem k % 16384)).bind
        (fun hostname => lookupS hostnames hostname) := by
  unfold get_shard
  rw [h]
  dsimp only
  cases hs : slots.get? (crc16_xmodem k % 16384) with
  | none => rfl
  | some hostname => rfl

/-- The framed request `SET foo bar` from the spec routing scenario. -/
def msgW : List Nat :=
  strBytes "*3\r\n$3\r\nSET\r\n$3\r\nfoo\r\n$3\r\nbar\r\n"

/-- A full 16384-slot vector mapping every slot to one host. -/
def slotsW : List String := List.replicate 16384 "redis1:6379"

/-- The host-to-backend-token registry of the concrete cluster. -/
def hostnamesW : List (String × Nat) := [("redis1:6379", 12)]

/-- C5 witness: key extraction and routing of `SET foo bar` on a concrete
slot vector. -/
theorem get_shard_spec_witness :
    extract_key msgW = some (KeyPos.Single (strBytes "foo")) ∧
    get_shard slotsW hostnamesW msgW =
      (slotsW.get? (crc16_xmodem (strBytes "foo") % 16384)).bind
        (fun hostname => lookupS hostnamesW hostname) :=
  ⟨rfl, get_shard_spec slotsW hostnamesW msgW (strBytes "foo") rfl⟩

/-- C7 counterexample: a LOADCONFIG whose file fails to load or parse makes
`RustProxy::load_config` panic on its `unwrap` (modelled `none`) — no error
reply reaches the admin client. -/
theorem handle_loadconfig_failure_panics :
    handle_loadconfig { active := 1, staged := none } (some "bad.toml") none = none := rfl

/-- C7 (amended): a successful LOADCONFIG parses the file, stages the parsed
configuration without touching the active one, and replies `+<path>`; a load
or parse failure panics the process instead of replying with an error. -/
theorem handle_loadconfig_spec (st : ConfigState) (path : String) (c : Nat) :
    handle_loadconfig st (some path) (some c) =
      some ({ st with staged := some c }, "+" ++ path ++ "\r\n") ∧
    ({ st with staged := some c } : ConfigState).active = st.active ∧
    handle_loadconfig st (some path) none = none :=
  ⟨rfl, rfl, rfl⟩

theorem counterAfter_eq (n : Nat) :
    counterAfter n = FIRST_SOCKET_INDEX + SOCKET_INDEX_SHIFT * n := by
  induction n with
  | zero => rfl
  | succ k ih =>
      unfold counterAfter generate_client_token
      rw [ih]
      unfold FIRST_SOCKET_INDEX SOCKET_INDEX_SHIFT
      ring

theorem minted_eq (n : Nat) :
    minted n = FIRST_SOCKET_INDEX + SOCKET_INDEX_SHIFT * (n + 1) := by
  unfold minted generate_client_token
  rw [counterAfter_eq]
  unfold FIRST_SOCKET_INDEX SOCKET_INDEX_SHIFT
  ring

/-- C10: minting starts the counter at FIRST_SOCKET_INDEX = 10 and advances
it by SOCKET_INDEX_SHIFT = 2 per mint, so the n-th minted token is
`10 + 2(n+1)` — even and strictly increasing; the derived reconnect-timer
token `minted n + 1` is odd, collides with no minted token, with neither
reserved token (`SERVER`, `NULL_TOKEN`), nor with the timer token of any
other backend, so inserting it never overwrites another live subscriber
entry. -/
theorem minted_tokens_spec (n m : Nat) :
    minted n = FIRST_SOCKET_INDEX + SOCKET_INDEX_SHIFT * (n + 1) ∧
    minted n % 2 = 0 ∧
    (n < m → minted n < minted m) ∧
    (minted n + 1) % 2 = 1 ∧
    minted n + 1 ≠ SERVER ∧
    minted n + 1 ≠ NULL_TOKEN ∧
    (∀ j, minted n + 1 ≠ minted j) ∧
    (minted n + 1 = minted m + 1 → n = m) := by
  refine ⟨minted_eq n, ?_, ?_, ?_, ?_, ?_, ?_, ?_⟩
  · rw [minted_eq]
    unfold FIRST_SOCKET_INDEX SOCKET_INDEX_SHIFT
    omega
  · intro hnm
    rw [minted_eq, minted_eq]
    unfold FIRST_SOCKET_INDEX SOCKET_INDEX_SHIFT
    omega
  · rw [minted_eq]
    unfold FIRST_SOCKET_INDEX SOCKET_INDEX_SHIFT
    omega
  · rw [minted_eq]
    unfold FIRST_SOCKET_INDEX SOCKET_INDEX_SHIFT SERVER
    omega
  · rw [minted_eq]
    unfold FIRST_SOCKET_INDEX SOCKET_INDEX_SHIFT NULL_TOKEN
    omega
  · intro j
    rw [minted_eq, minted_eq]
    unfold FIRST_SOCKET_INDEX SOCKET_INDEX_SHIFT
    omega
  · intro hj
    rw [minted_eq, minted_eq] at hj
    unfold FIRST_SOCKET_INDEX SOCKET_INDEX_SHIFT at hj
    omega

/-- C10 witness: the first two minted tokens. -/
theorem minted_tokens_spec_witness :
    (0 < 1) ∧ minted 0 < minted 1 :=
  ⟨by decide, (minted_tokens_spec 0 1).2.2.1 (by decide)⟩
